import Mathlib

set_option linter.unusedVariables false

/-!
# Verification of the wiperf-speedtest protocol core

A shallow embedding of the throughput-test protocol implemented in
`src/wiperf-speedtest/server.ts` and `src/wiperf-speedtest/client.ts`:
the wire-protocol validation, the per-connection state machines on both
endpoints, the flood engines (server-side download flood, client-side
upload flood), the receiver measurement engines with their first-payload
timing correction, and the termination handshake.

Modelling conventions:
* JavaScript numbers are modelled by `JsNum` (a rational, or one of the
  non-finite values `nan`, `posInf`, `negInf`) where the code performs
  `typeof x === "number"` checks and comparisons on values that come off
  the wire; clock readings from `performance.now()` are always finite and
  are modelled as plain rationals (float rounding is idealised away).
* Byte counts are integers (`Int`), because the server and client both
  use the sentinel value `-1` for "first payload not yet seen".
* Socket sends are modelled by returning the list of messages emitted by
  a handler; `setTimeout` identifiers are modelled by an explicit
  "fresh id" argument (the Deno/browser runtimes return positive ids).
* Each event handler is a pure function of the pre-state, the clock
  reading at the instant the event is processed, and the event data.
-/

namespace Wiperf

/-- A JavaScript number: a finite double (idealised as a rational) or one
of the non-finite values. `JSON.parse` can produce `posInf` (e.g. from
the literal `1e999`), so validation code must be modelled over all of
these. -/
inductive JsNum where
  | finite (q : ℚ)
  | nan
  | posInf
  | negInf
deriving DecidableEq, Repr

/-- JS comparison `x <= 0` (false for `NaN` and `+Infinity`). -/
def JsNum.leZero : JsNum → Bool
  | .finite q => q ≤ 0
  | .nan => false
  | .posInf => false
  | .negInf => true

/-- JS comparison `q >= x` for a finite left operand `q`
(false whenever `x` is `NaN` or `+Infinity`). -/
def JsNum.geFin (q : ℚ) : JsNum → Bool
  | .finite r => r ≤ q
  | .nan => false
  | .posInf => false
  | .negInf => true

/-- JS addition `x + c` of a finite constant to a JS number. -/
def JsNum.addFin (c : ℚ) : JsNum → JsNum
  | .finite q => .finite (q + c)
  | .nan => .nan
  | .posInf => .posInf
  | .negInf => .negInf

/-- JS multiplication `2 * x`. -/
def JsNum.twice : JsNum → JsNum
  | .finite q => .finite (2 * q)
  | .nan => .nan
  | .posInf => .posInf
  | .negInf => .negInf

/-- JS computation `Math.min((elapsed / duration) * 100, 100)` for a
finite `elapsed` and an arbitrary JS `duration`
(`Math.min(NaN, 100) = NaN`, `Math.min(Infinity, 100) = 100`,
`elapsed / Infinity = 0`). -/
def JsNum.progressPercent (elapsed : ℚ) : JsNum → JsNum
  | .finite r =>
      if r = 0 then
        if elapsed = 0 then .nan
        else if 0 < elapsed then .finite 100
        else .negInf
      else .finite (min (elapsed / r * 100) 100)
  | .nan => .nan
  | .posInf => .finite 0
  | .negInf => .finite 0

end Wiperf

namespace Wiperf.Server

/-- `DOWNLOAD_DURATION_BUFFER_MS` from server.ts. -/
def DOWNLOAD_DURATION_BUFFER_MS : ℚ := 500

/-- `FLOOD_ACTIVE_NOT_YET_SCHEDULED` sentinel for `downloadFloodTimer`. -/
def FLOOD_ACTIVE_NOT_YET_SCHEDULED : Int := -1

/-- `FLOOD_CANCELLED` sentinel for `downloadFloodTimer`. -/
def FLOOD_CANCELLED : Int := -2

/-- Server's `UploadState` (the `status: "upload"` variant). -/
structure UploadState where
  startTimeOnServerMs : ℚ
  requestedDurationMs : JsNum
  bytesReceived : Int
deriving DecidableEq, Repr

/-- Server's `DownloadState` (the `status: "download"` variant). -/
structure DownloadState where
  startTimeOnServerMs : ℚ
  requestedDurationMs : JsNum
  downloadFloodTimer : Int
deriving DecidableEq, Repr

/-- Server's per-connection `ClientState` tagged union. -/
inductive ClientState where
  | idle
  | upload (s : UploadState)
  | download (s : DownloadState)
deriving DecidableEq, Repr

/-- Server→client `ServerMessage` wire type. -/
inductive ServerMessage where
  | uploadProgress (elapsedMs : ℚ) (receivedBytes : Int) (progressPercent : JsNum)
  | uploadResult (elapsedMs : ℚ) (receivedBytes : Int)
  | downloadComplete
deriving DecidableEq, Repr

/-- Validated client→server `Action` (output of `parseEventToAction`).
Binary frames carry only their length, which is all the server reads. -/
inductive Action where
  | startUpload (durationMs : JsNum)
  | startDownload (durationMs : JsNum) (payloadSizeBytes : JsNum)
  | stopUpload
  | stopDownload
  | uploadData (byteLength : ℕ)
deriving DecidableEq, Repr

/-- The result of `JSON.parse` on a text frame, as far as the server's
validation inspects it: a parse failure, a value whose `type` field is
not one of the four known strings (or is absent / not a string), or a
known message shape whose numeric field is either a JS number or absent /
of a non-number type (`none`). -/
inductive ParsedJson where
  | malformed
  | unknownType
  | startUpload (durationMs : Option JsNum)
  | startDownload (durationMs : Option JsNum) (payloadSizeBytes : Option JsNum)
  | stopUpload
  | stopDownload
deriving DecidableEq, Repr

/-- A WebSocket `MessageEvent`: a text frame (already run through
`JSON.parse`, see `ParsedJson`) or a binary frame of a given length. -/
inductive EventData where
  | text (p : ParsedJson)
  | binary (byteLength : ℕ)
deriving DecidableEq, Repr

/-- `parseEventToAction` from server.ts: validation of incoming frames.
`durationMs` / `payloadSizeBytes` must be of number type and must not
satisfy `x <= 0`; malformed JSON and unknown types yield `none`
(the caller then leaves the state unchanged). -/
def parseEventToAction : EventData → Option Action
  | .text .malformed => none
  | .text .unknownType => none
  | .text (.startUpload d) =>
      match d with
      | none => none
      | some x => if x.leZero then none else some (.startUpload x)
  | .text (.startDownload d p) =>
      match d with
      | none => none
      | some x =>
          if x.leZero then none
          else
            match p with
            | none => none
            | some y => if y.leZero then none else some (.startDownload x y)
  | .text .stopUpload => some .stopUpload
  | .text .stopDownload => some .stopDownload
  | .binary len => some (.uploadData len)

/-- Handler `startUpload` from server.ts: `idle → upload`, with the
clock started provisionally and `bytesReceived` set to the `-1`
first-payload sentinel. -/
def startUpload (now : ℚ) (durationMs : JsNum) : ClientState × List ServerMessage :=
  (.upload ⟨now, durationMs, -1⟩, [])

/-- Handler `startDownload` from server.ts: `idle → download`. The state
is created with `downloadFloodTimer = FLOOD_ACTIVE_NOT_YET_SCHEDULED`;
the synchronously launched flood loop (`initiateDownloadFlooding`) is
modelled separately by `sendDownloadChunk`, which is the body of that
loop. -/
def startDownload (now : ℚ) (durationMs payloadSizeBytes : JsNum) :
    ClientState × List ServerMessage :=
  (.download ⟨now, durationMs, FLOOD_ACTIVE_NOT_YET_SCHEDULED⟩, [])

/-- Handler `stopUpload` from server.ts: emits the final `uploadResult`
with whatever `bytesReceived` currently holds, and returns to idle. -/
def stopUpload (now : ℚ) (s : UploadState) : ClientState × List ServerMessage :=
  (.idle, [.uploadResult (now - s.startTimeOnServerMs) s.bytesReceived])

/-- Handler `stopDownload` from server.ts: clears a running flood timer,
replies with the content-free `downloadComplete` ack, returns to idle. -/
def stopDownload (s : DownloadState) : ClientState × List ServerMessage :=
  (.idle, [.downloadComplete])

/-- Handler `uploadData` from server.ts: the server-side measurement
engine. First payload (sentinel `-1`): reset the clock to `now`, zero
the byte counter, emit nothing. Otherwise accumulate, and either finish
(`elapsedMs >= requestedDurationMs`: emit `uploadResult`, go idle) or
emit an `uploadProgress` message. -/
def uploadData (now : ℚ) (s : UploadState) (byteLength : ℕ) :
    ClientState × List ServerMessage :=
  if s.bytesReceived = -1 then
    (.upload ⟨now, s.requestedDurationMs, 0⟩, [])
  else
    let newBytesReceived : Int := s.bytesReceived + byteLength
    let elapsedMs : ℚ := now - s.startTimeOnServerMs
    if JsNum.geFin elapsedMs s.requestedDurationMs then
      (.idle, [.uploadResult elapsedMs newBytesReceived])
    else
      (.upload ⟨s.startTimeOnServerMs, s.requestedDurationMs, newBytesReceived⟩,
        [.uploadProgress elapsedMs newBytesReceived
          (JsNum.progressPercent elapsedMs s.requestedDurationMs)])

/-- The `STATE_HANDLERS` registry of server.ts as a predicate: which
`(current phase, action type)` pairs have a registered handler. -/
def hasHandler : ClientState → Action → Bool
  | .idle, .startUpload _ => true
  | .idle, .startDownload _ _ => true
  | .upload _, .stopUpload => true
  | .upload _, .uploadData _ => true
  | .download _, .stopDownload => true
  | _, _ => false

/-- The dispatch step of `processMessage` from server.ts, after parsing:
look up the handler for `(current phase, action type)`; a missing
combination leaves the state unchanged and sends nothing. -/
def processAction (now : ℚ) (st : ClientState) (a : Action) :
    ClientState × List ServerMessage :=
  match st, a with
  | .idle, .startUpload d => startUpload now d
  | .idle, .startDownload d p => startDownload now d p
  | .upload s, .stopUpload => stopUpload now s
  | .upload s, .uploadData len => uploadData now s len
  | .download s, .stopDownload => stopDownload s
  | st, _ => (st, [])

/-- `processMessage` from server.ts: parse, then dispatch; an event that
fails validation leaves the state unchanged and sends nothing. -/
def processMessage (now : ℚ) (st : ClientState) (ev : EventData) :
    ClientState × List ServerMessage :=
  match parseEventToAction ev with
  | none => (st, [])
  | some a => processAction now st a

/-- `cleanupForDownloadFlood` from server.ts: on disconnect or socket
error, if a download flood timer is actually running (`> 0`), clear it
and mark the flood `FLOOD_CANCELLED`; otherwise do nothing. -/
def cleanupForDownloadFlood : ClientState → ClientState
  | .download s =>
      if s.downloadFloodTimer > 0 then
        .download ⟨s.startTimeOnServerMs, s.requestedDurationMs, FLOOD_CANCELLED⟩
      else
        .download s
  | st => st

/-- The per-flood context captured by `initiateDownloadFlooding`:
flood start clock, requested duration, and chunk size (from which the
backpressure threshold `2 * payloadSizeBytes` is derived). -/
structure FloodCtx where
  floodStartTimeMs : ℚ
  requestedDurationMs : JsNum
  payloadSizeBytes : JsNum
deriving DecidableEq, Repr

/-- The observable outcome of one tick of the server flood loop:
the new `downloadFloodTimer` value, whether a chunk was sent on this
tick, and whether a further tick was scheduled. -/
structure FloodStep where
  newTimer : Int
  sent : Bool
  rescheduled : Bool
deriving DecidableEq, Repr

/-- `sendDownloadChunk` from server.ts — one tick of the server-side
Flood Engine. Inputs beyond the captured context: the current
`downloadFloodTimer`, the socket's `bufferedAmount`, the clock, and the
(positive) id the runtime would assign to a scheduled `setTimeout`.
* cancelled (`FLOOD_CANCELLED`): return, sending and scheduling nothing;
* backpressure (`bufferedAmount >= 2 * payloadSizeBytes`): send nothing,
  schedule a 1 ms retry;
* otherwise send one chunk, then stop for good once
  `elapsedMs >= requestedDurationMs + DOWNLOAD_DURATION_BUFFER_MS`,
  else schedule the next tick immediately. -/
def sendDownloadChunk (ctx : FloodCtx) (timer : Int) (bufferedAmount : ℚ)
    (now : ℚ) (freshId : Int) : FloodStep :=
  if timer = FLOOD_CANCELLED then
    ⟨timer, false, false⟩
  else if JsNum.geFin bufferedAmount ctx.payloadSizeBytes.twice then
    ⟨freshId, false, true⟩
  else
    let elapsedMs := now - ctx.floodStartTimeMs
    if JsNum.geFin elapsedMs (ctx.requestedDurationMs.addFin DOWNLOAD_DURATION_BUFFER_MS) then
      ⟨FLOOD_CANCELLED, true, false⟩
    else
      ⟨freshId, true, true⟩

/-- The authoritative clock of an upload-in-progress state, if any. -/
def startTimeOf : ClientState → Option ℚ
  | .upload s => some s.startTimeOnServerMs
  | _ => none

/-- Run the server state machine over a sequence of binary payload
frames, each tagged with the clock reading at which it is processed,
collecting all emitted messages in order. -/
def runBinaryEvents (st : ClientState) : List (ℚ × ℕ) → ClientState × List ServerMessage
  | [] => (st, [])
  | (t, len) :: rest =>
      let step := processMessage t st (.binary len)
      let tail := runBinaryEvents step.1 rest
      (tail.1, step.2 ++ tail.2)

/-- Total payload bytes in a list of timed binary frames. -/
def sumBytes (evs : List (ℚ × ℕ)) : Int :=
  (evs.map (fun p => (p.2 : Int))).sum

end Wiperf.Server

namespace Wiperf.Client

/-- `MiB` constant from client.ts. -/
def MiB : ℕ := 1024 * 1024

/-- `BACKPRESSURE_THRESHOLD_BYTES` from client.ts: a fixed 16 MiB,
independent of the configured payload size. -/
def BACKPRESSURE_THRESHOLD_BYTES : ℕ := 16 * MiB

/-- Client's `UploadState` fields relevant to the protocol core: the
flood-loop timeout id and the size of the reusable payload buffer. -/
structure UploadState where
  uploadInterval : Int
  uploadPayloadBytes : ℕ
deriving DecidableEq, Repr

/-- Client's `DownloadState` fields. -/
structure DownloadState where
  downloadBytesReceived : Int
  downloadStartTimeClient : ℚ
  downloadLastReceivedTimeClient : ℚ
  downloadCompleted : Bool
deriving DecidableEq, Repr

/-- Client's `ClientState` discriminated union (the `ws` field is
modelled separately by a `wsOpen` flag where the code reads
`ws.readyState`). -/
inductive ClientState where
  | disconnected
  | ready
  | upload (s : UploadState)
  | download (s : DownloadState)
  | completed
  | error
deriving DecidableEq, Repr

/-- A parsed server→client control message, including the case of a
successfully parsed JSON value whose `type` is not one of the three
known strings (the `default:` branch of `handleServerMessage`). -/
inductive ServerMessage where
  | uploadProgress (elapsedMs : ℚ) (receivedBytes : Int) (progressPercent : JsNum)
  | uploadResult (elapsedMs : ℚ) (receivedBytes : Int)
  | downloadComplete
  | unknown
deriving DecidableEq, Repr

/-- Client→server control messages (`Action` in client.ts). -/
inductive Action where
  | startUpload (durationMs : ℚ)
  | startDownload (durationMs : ℚ) (payloadSizeBytes : ℚ)
  | stopUpload
  | stopDownload
deriving DecidableEq, Repr

/-- `stopUploadTest` from client.ts: if an upload flood timeout is
pending (`uploadInterval ≠ 0`), clear it and record `0`; in any other
state do nothing. -/
def stopUploadTest : ClientState → ClientState
  | .upload s =>
      if s.uploadInterval ≠ 0 then .upload ⟨0, s.uploadPayloadBytes⟩ else .upload s
  | st => st

/-- `resetToIdle` from client.ts: stop the upload flood, then go to
`ready` if the socket is open, else `disconnected` (the UI resets are
outside the core). -/
def resetToIdle (st : ClientState) (wsOpen : Bool) : ClientState :=
  if wsOpen then .ready else .disconnected

/-- `handleServerMessage` from client.ts, state part. `uploadProgress`
only updates the display; `uploadResult` ends in the unconditional
`ready` transition whatever the current status; `downloadComplete`
likewise transitions to `ready`; unknown types are only logged. -/
def handleServerMessage (st : ClientState) : ServerMessage → ClientState
  | .uploadProgress _ _ _ => st
  | .uploadResult _ _ => .ready
  | .downloadComplete => .ready
  | .unknown => st

/-- The client's `ws.onmessage` handler for a text frame: parse the
JSON and dispatch to `handleServerMessage`; on a parse failure the
client sets the `error` state and calls `resetToIdle`. -/
def onTextMessage (st : ClientState) (wsOpen : Bool) :
    Option ServerMessage → ClientState
  | some m => handleServerMessage st m
  | none => resetToIdle .error wsOpen

/-- `handlePayloadMessage` from client.ts: the client-side measurement
engine for download tests. Returns the new state together with the
control messages sent to the server (sends require an open socket).
The code calls `performance.now()` twice in one handler invocation;
both readings are modelled as the single instant `now`. -/
def handlePayloadMessage (now : ℚ) (st : ClientState) (byteLength : ℕ)
    (configDurationMs : ℚ) (wsOpen : Bool) : ClientState × List Action :=
  match st with
  | .download ds =>
      if ds.downloadCompleted then (.download ds, [])
      else if ds.downloadBytesReceived = -1 then
        (.download ⟨0, now, now, false⟩, [])
      else
        let newBytesReceived : Int := ds.downloadBytesReceived + byteLength
        let updated : DownloadState :=
          ⟨newBytesReceived, ds.downloadStartTimeClient, now, ds.downloadCompleted⟩
        let elapsedSoFar : ℚ := now - updated.downloadStartTimeClient
        if elapsedSoFar ≥ configDurationMs then
          (.download ⟨newBytesReceived, ds.downloadStartTimeClient, now, true⟩,
            if wsOpen then [.stopDownload] else [])
        else
          (.download updated, [])
  | st => (st, [])

/-- `stopRealTest` from client.ts (the user-initiated stop): in the
upload or download phase, stop the upload flood, send the matching stop
control message, and transition to `ready` immediately. -/
def stopRealTest (st : ClientState) (wsOpen : Bool) : ClientState × List Action :=
  match st with
  | .upload _ =>
      (.ready, if wsOpen then [.stopUpload] else [])
  | .download _ =>
      (.ready, if wsOpen then [.stopDownload] else [])
  | st => (st, [])

/-- One tick of `sendUploadChunk` from client.ts, the client-side Flood
Engine. Inputs: the state, whether the socket is open, the socket's
`bufferedAmount`, the (positive) id a scheduled `setTimeout` would get,
and whether `ws.send` succeeds (the `catch` branch). Outputs: the new
state, whether a chunk was sent, and whether a further tick was
scheduled. There is no elapsed-time check anywhere in this function. -/
def sendUploadChunk (st : ClientState) (wsOpen : Bool) (bufferedAmount : ℕ)
    (freshId : Int) (sendOk : Bool) : ClientState × Bool × Bool :=
  match st with
  | .upload s =>
      if ¬wsOpen then (stopUploadTest (.upload s), false, false)
      else if bufferedAmount ≥ BACKPRESSURE_THRESHOLD_BYTES then
        (.upload ⟨freshId, s.uploadPayloadBytes⟩, false, true)
      else if sendOk then
        (.upload ⟨freshId, s.uploadPayloadBytes⟩, true, true)
      else
        (resetToIdle .error wsOpen, false, false)
  | st => (stopUploadTest st, false, false)

/-- Upload-direction speed displayed by the client (the `uploadProgress`
and `uploadResult` branches of `handleServerMessage`):
`(receivedBytes * 8 * 1000) / elapsedMs / (1024 * 1024)`. -/
def speedMbpsFromServer (receivedBytes : Int) (elapsedMs : ℚ) : ℚ :=
  receivedBytes * 8 * 1000 / elapsedMs / (1024 * 1024)

/-- `speedBitsPerSec` computed in `handlePayloadMessage` (download):
`Math.floor((bytes * 8 * 1000) / elapsedSoFar)` when `elapsedSoFar > 0`,
else `0`. -/
def downloadSpeedBitsPerSec (bytes : Int) (elapsedMs : ℚ) : Int :=
  if 0 < elapsedMs then Int.floor ((bytes * 8 * 1000 : ℚ) / elapsedMs) else 0

/-- The Mbps value displayed in the download path:
`speedBitsPerSec / (1024 * 1024)`. -/
def downloadSpeedMbps (bytes : Int) (elapsedMs : ℚ) : ℚ :=
  (downloadSpeedBitsPerSec bytes elapsedMs : ℚ) / (1024 * 1024)

/-- The authoritative clock of a download-in-progress state, if any. -/
def startTimeOf : ClientState → Option ℚ
  | .download s => some s.downloadStartTimeClient
  | _ => none

end Wiperf.Client

namespace Wiperf

/-- Modelled from the spec (§4.4): the throughput formula the spec
requires of both directions, `speedBitsPerSecond =
bytesReceived * 8 * 1000 / elapsedMs`. Used to compare the code's
computations against the spec's words. -/
def specSpeedBitsPerSecond (bytesReceived : Int) (elapsedMs : ℚ) : ℚ :=
  bytesReceived * 8 * 1000 / elapsedMs

/-- Modelled from the spec (§4.4): the displayed value in decimal Mbps,
`speedBitsPerSecond / 1_000_000`. -/
def specDisplayedMbps (bytesReceived : Int) (elapsedMs : ℚ) : ℚ :=
  specSpeedBitsPerSecond bytesReceived elapsedMs / 1000000

end Wiperf

namespace Wiperf

/-- C1: on both endpoints the first binary payload frame after a test
start (byte counter holding the `-1` sentinel) is never counted: it
resets the authoritative clock to the current instant, sets the byte
counter to exactly `0`, and produces no outgoing message; and on any
later frame (counter `≠ -1`, flag not yet completed) the clock is never
reset again. -/
theorem first_payload_discarded (now t t' : ℚ) (d : JsNum) (len : ℕ) (b : Int)
    (cfgD : ℚ) (wsOpen : Bool) (ds : Client.DownloadState)
    (hb : b ≠ -1) (hds : ds.downloadBytesReceived ≠ -1) :
    Server.uploadData now ⟨t, d, -1⟩ len = (.upload ⟨now, d, 0⟩, [])
    ∧ ((Server.uploadData now ⟨t, d, b⟩ len).1 = .idle ∨
        Server.startTimeOf (Server.uploadData now ⟨t, d, b⟩ len).1 = some t)
    ∧ Client.handlePayloadMessage now (.download ⟨-1, t, t', false⟩) len cfgD wsOpen
        = (.download ⟨0, now, now, false⟩, [])
    ∧ Client.startTimeOf
        (Client.handlePayloadMessage now (.download ds) len cfgD wsOpen).1
        = some ds.downloadStartTimeClient := by
  refine ⟨?_, ?_, ?_, ?_⟩
  · simp [Server.uploadData]
  · simp only [Server.uploadData, hb, if_false]
    split
    · exact Or.inl rfl
    · exact Or.inr rfl
  · simp [Client.handlePayloadMessage]
  · simp only [Client.handlePayloadMessage, hds, if_false]
    split
    · rfl
    · split <;> rfl

/-- Witness for `first_payload_discarded` at a concrete input. -/
theorem first_payload_discarded_witness :
    (0 : Int) ≠ -1 ∧
    (Server.uploadData 10 ⟨3, .finite 3000, -1⟩ 4096
        = (.upload ⟨10, .finite 3000, 0⟩, [])
      ∧ ((Server.uploadData 10 ⟨3, .finite 3000, 0⟩ 4096).1 = .idle ∨
          Server.startTimeOf (Server.uploadData 10 ⟨3, .finite 3000, 0⟩ 4096).1
            = some 3)
      ∧ Client.handlePayloadMessage 10 (.download ⟨-1, 3, 4, false⟩) 4096 3000 true
          = (.download ⟨0, 10, 10, false⟩, [])
      ∧ Client.startTimeOf
          (Client.handlePayloadMessage 10 (.download ⟨7, 3, 4, false⟩) 4096 3000 true).1
          = some (Client.DownloadState.mk 7 3 4 false).downloadStartTimeClient) :=
  ⟨by decide,
   first_payload_discarded 10 3 4 (.finite 3000) 4096 0 3000 true ⟨7, 3, 4, false⟩
     (by decide) (by decide)⟩

/-- C8: the server's dispatch is a total no-op on any `(phase, action)`
pair absent from the handler registry: the state is returned unchanged
and nothing is sent — in particular for a second `startUpload` while
uploading, and for a binary frame arriving while idle or while in the
download phase. -/
theorem unhandled_action_noop (now : ℚ) (st : Server.ClientState) (a : Server.Action)
    (h : Server.hasHandler st a = false) :
    Server.processAction now st a = (st, [])
    ∧ (∀ s d, Server.processAction now (.upload s) (.startUpload d) = (.upload s, []))
    ∧ (∀ len, Server.processAction now .idle (.uploadData len) = (.idle, []))
    ∧ (∀ s len, Server.processAction now (.download s) (.uploadData len)
        = (.download s, [])) := by
  refine ⟨?_, fun s d => rfl, fun len => rfl, fun s len => rfl⟩
  cases st <;> cases a <;> simp_all [Server.hasHandler, Server.processAction]

/-- Witness for `unhandled_action_noop` at a concrete input. -/
theorem unhandled_action_noop_witness :
    Server.hasHandler .idle .stopUpload = false ∧
    (Server.processAction 5 .idle .stopUpload = (.idle, [])
      ∧ (∀ s d, Server.processAction 5 (.upload s) (.startUpload d) = (.upload s, []))
      ∧ (∀ len, Server.processAction 5 .idle (.uploadData len) = (.idle, []))
      ∧ (∀ s len, Server.processAction 5 (.download s) (.uploadData len)
          = (.download s, []))) :=
  ⟨by decide, unhandled_action_noop 5 .idle .stopUpload (by decide)⟩

/-- C9: cancelling the server's download flood is idempotent — running
the disconnect-cleanup path twice (e.g. the explicit-stop and
disconnect paths racing) equals running it once, and also after the
explicit-stop handler it is a no-op; and once the cancellation marker
`FLOOD_CANCELLED` is set, the very next flood tick sends nothing,
schedules nothing and leaves the marker as it is, regardless of the
outbound buffer state. -/
theorem flood_cancellation_idempotent :
    (∀ st, Server.cleanupForDownloadFlood (Server.cleanupForDownloadFlood st)
        = Server.cleanupForDownloadFlood st)
    ∧ (∀ s, Server.cleanupForDownloadFlood (Server.stopDownload s).1
        = (Server.stopDownload s).1)
    ∧ (∀ ctx bufferedAmount now freshId,
        Server.sendDownloadChunk ctx Server.FLOOD_CANCELLED bufferedAmount now freshId
          = ⟨Server.FLOOD_CANCELLED, false, false⟩) := by
  refine ⟨?_, fun s => rfl, fun ctx b n f => by simp [Server.sendDownloadChunk]⟩
  intro st
  cases st with
  | idle => rfl
  | upload s => rfl
  | download s =>
      by_cases h : s.downloadFloodTimer > 0
      · norm_num [Server.cleanupForDownloadFlood, h, Server.FLOOD_CANCELLED]
      · norm_num [Server.cleanupForDownloadFlood, h]

/-- C10: a `stopUpload` arriving right after `startUpload`, before any
binary payload frame, makes the server emit `uploadResult` whose
`receivedBytes` is the first-payload sentinel `-1` (not `0`): the
internal sentinel is observable on the wire. -/
theorem stop_before_first_payload_sentinel (t0 t1 : ℚ) (D : ℚ) (hD : 0 < D) :
    Server.processMessage t1
        (Server.processMessage t0 .idle (.text (.startUpload (some (.finite D))))).1
        (.text .stopUpload)
      = (.idle, [.uploadResult (t1 - t0) (-1)]) := by
  have hlz : JsNum.leZero (.finite D) = false := by
    simp [JsNum.leZero, not_le.mpr hD]
  simp [Server.processMessage, Server.parseEventToAction, hlz,
    Server.processAction, Server.startUpload, Server.stopUpload]

/-- Witness for `stop_before_first_payload_sentinel` at a concrete input. -/
theorem stop_before_first_payload_sentinel_witness :
    (0 : ℚ) < 3000 ∧
    Server.processMessage 250
        (Server.processMessage 100 .idle (.text (.startUpload (some (.finite 3000))))).1
        (.text .stopUpload)
      = (.idle, [.uploadResult (250 - 100) (-1)]) :=
  ⟨by norm_num, stop_before_first_payload_sentinel 100 250 3000 (by norm_num)⟩

/-- C2 counterexample: a user-initiated stop during a download test
(`stopRealTest`) moves the client to its terminal `ready` phase in the
very step that sends `StopDownload`, without waiting for the
`downloadComplete` acknowledgment — so it is not the case that on every
run sending `StopDownload` the client transitions to `ready` only after
the acknowledgment. -/
theorem download_stop_before_ack_counterexample :
    Client.stopRealTest (.download ⟨0, 100, 200, false⟩) true
        = (.ready, [.stopDownload])
    ∧ Client.ClientState.ready ≠ .download ⟨0, 100, 200, false⟩ := by
  exact ⟨rfl, by simp⟩

/-- C2 amended: only client-detected duration completion defers the
terminal transition: on detecting `elapsed ≥ duration` the client sets
the `downloadCompleted` flag, sends `StopDownload`, and stays in the
download phase (further payloads are then ignored); it reaches `ready`
only when the server's `downloadComplete` acknowledgment is handled.
A user-initiated stop (`stopRealTest`) instead transitions to `ready`
immediately upon sending `StopDownload`, without waiting for the
acknowledgment. -/
theorem download_completion_defers_ready (now cfgD : ℚ) (len : ℕ)
    (ds ds' : Client.DownloadState) (st : Client.ClientState)
    (hflag : ds.downloadCompleted = false)
    (hb : ds.downloadBytesReceived ≠ -1)
    (hel : now - ds.downloadStartTimeClient ≥ cfgD) :
    Client.handlePayloadMessage now (.download ds) len cfgD true
      = (.download ⟨ds.downloadBytesReceived + len, ds.downloadStartTimeClient, now, true⟩,
          [.stopDownload])
    ∧ (∀ now' len' cfgD' wsOpen', ds'.downloadCompleted = true →
        Client.handlePayloadMessage now' (.download ds') len' cfgD' wsOpen'
          = (.download ds', []))
    ∧ Client.handleServerMessage st .downloadComplete = .ready
    ∧ Client.stopRealTest (.download ds) true = (.ready, [.stopDownload]) := by
  refine ⟨?_, ?_, rfl, rfl⟩
  · simp [Client.handlePayloadMessage, hflag, hb, hel]
  · intro now' len' cfgD' wsOpen' hc
    simp [Client.handlePayloadMessage, hc]

/-- Witness for `download_completion_defers_ready` at a concrete input. -/
theorem download_completion_defers_ready_witness :
    (Client.DownloadState.mk 5 100 200 false).downloadCompleted = false ∧
    (Client.DownloadState.mk 5 100 200 false).downloadBytesReceived ≠ -1 ∧
    (3200 : ℚ) - (Client.DownloadState.mk 5 100 200 false).downloadStartTimeClient ≥ 3000 ∧
    (Client.handlePayloadMessage 3200 (.download ⟨5, 100, 200, false⟩) 7 3000 true
        = (.download ⟨(5 : Int) + (7 : ℕ), 100, 3200, true⟩, [.stopDownload])
      ∧ (∀ now' len' cfgD' wsOpen',
          (Client.DownloadState.mk 9 1 2 true).downloadCompleted = true →
          Client.handlePayloadMessage now' (.download ⟨9, 1, 2, true⟩) len' cfgD' wsOpen'
            = (.download ⟨9, 1, 2, true⟩, []))
      ∧ Client.handleServerMessage .ready .downloadComplete = .ready
      ∧ Client.stopRealTest (.download ⟨5, 100, 200, false⟩) true
          = (.ready, [.stopDownload])) :=
  ⟨rfl, by decide, by norm_num,
   download_completion_defers_ready 3200 3000 7 ⟨5, 100, 200, false⟩ ⟨9, 1, 2, true⟩
     .ready rfl (by decide) (by norm_num)⟩

/-- C3 counterexample: the client converts to displayed Mbps by dividing
by the binary constant `1024 * 1024`, not the decimal `1_000_000`: for
`receivedBytes = 131072` and `elapsedMs = 1000` the code displays
exactly `1` Mbps while the claimed decimal conversion gives `1.048576`. -/
theorem mbps_divisor_counterexample :
    Client.speedMbpsFromServer 131072 1000 = 1
    ∧ specDisplayedMbps 131072 1000 = 1048576 / 1000000
    ∧ Client.speedMbpsFromServer 131072 1000 ≠ specDisplayedMbps 131072 1000 := by
  norm_num [Client.speedMbpsFromServer, specDisplayedMbps, specSpeedBitsPerSecond]

/-- C3 amended: both display paths compute
`speedBitsPerSecond = bytesReceived * 8 * 1000 / elapsedMs` (the
download payload path floors it to an integer, and yields `0` when
`elapsedMs ≤ 0`), and the displayed Mbps value divides by the binary
constant `1024 * 1024`, not by `1_000_000`. -/
theorem speed_formula_binary_mbps (b : Int) (e : ℚ) (he : 0 < e) :
    Client.speedMbpsFromServer b e = specSpeedBitsPerSecond b e / (1024 * 1024)
    ∧ Client.downloadSpeedBitsPerSec b e = Int.floor (specSpeedBitsPerSecond b e)
    ∧ Client.downloadSpeedMbps b e
        = (Int.floor (specSpeedBitsPerSecond b e) : ℚ) / (1024 * 1024)
    ∧ (∀ e', e' ≤ 0 → Client.downloadSpeedBitsPerSec b e' = 0) := by
  refine ⟨rfl, ?_, ?_, ?_⟩
  · simp [Client.downloadSpeedBitsPerSec, he, specSpeedBitsPerSecond]
  · simp [Client.downloadSpeedMbps, Client.downloadSpeedBitsPerSec, he,
      specSpeedBitsPerSecond]
  · intro e' he'
    simp [Client.downloadSpeedBitsPerSec, not_lt.mpr he']

/-- Witness for `speed_formula_binary_mbps` at a concrete input. -/
theorem speed_formula_binary_mbps_witness :
    (0 : ℚ) < 1500 ∧
    (Client.speedMbpsFromServer 131072 1500
        = specSpeedBitsPerSecond 131072 1500 / (1024 * 1024)
      ∧ Client.downloadSpeedBitsPerSec 131072 1500
          = Int.floor (specSpeedBitsPerSecond 131072 1500)
      ∧ Client.downloadSpeedMbps 131072 1500
          = (Int.floor (specSpeedBitsPerSecond 131072 1500) : ℚ) / (1024 * 1024)
      ∧ (∀ e', e' ≤ 0 → Client.downloadSpeedBitsPerSec 131072 e' = 0)) :=
  ⟨by norm_num, speed_formula_binary_mbps 131072 1500 (by norm_num)⟩

/-- C4 counterexample: the client-side upload Flood Engine performs no
elapsed-time check at all — `sendUploadChunk` does not read any clock,
so a tick occurring after `requestedDurationMs + 500` ms still sends a
chunk and schedules the next tick (here: an open socket, empty outbound
buffer, a 4 MiB payload): the engine neither stops scheduling nor marks
the flood finished on its own. -/
theorem upload_flood_no_duration_check_counterexample :
    Client.sendUploadChunk (.upload ⟨0, 4 * Client.MiB⟩) true 0 7 true
      = (.upload ⟨7, 4 * Client.MiB⟩, true, true) := by
  norm_num [Client.sendUploadChunk, Client.BACKPRESSURE_THRESHOLD_BYTES, Client.MiB]

/-- C4 amended: only the server-side download Flood Engine checks
elapsed time after each send: on a non-cancelled tick that passes the
backpressure gate and sends, once elapsed time since flood start exceeds
`requestedDurationMs + DOWNLOAD_DURATION_BUFFER_MS` (500 ms) it marks
the flood `FLOOD_CANCELLED` and schedules no further tick, even if no
stop message ever arrives. The client-side upload flood has no
time-based termination: it stops a tick only when the state has left the
upload phase or the socket is no longer open. -/
theorem download_flood_self_terminates (ctx : Server.FloodCtx) (timer : Int)
    (bufferedAmount now D : ℚ) (freshId : Int)
    (hd : ctx.requestedDurationMs = .finite D)
    (ht : timer ≠ Server.FLOOD_CANCELLED)
    (hbp : JsNum.geFin bufferedAmount ctx.payloadSizeBytes.twice = false)
    (hel : now - ctx.floodStartTimeMs > D + 500) :
    Server.sendDownloadChunk ctx timer bufferedAmount now freshId
      = ⟨Server.FLOOD_CANCELLED, true, false⟩
    ∧ (∀ s b f ok, Client.sendUploadChunk (.upload s) false b f ok
        = (Client.stopUploadTest (.upload s), false, false))
    ∧ (∀ st w b f ok, (∀ s, st ≠ Client.ClientState.upload s) →
        Client.sendUploadChunk st w b f ok = (Client.stopUploadTest st, false, false)) := by
  refine ⟨?_, fun s b f ok => by simp [Client.sendUploadChunk], ?_⟩
  · have hge : JsNum.geFin (now - ctx.floodStartTimeMs)
        (ctx.requestedDurationMs.addFin Server.DOWNLOAD_DURATION_BUFFER_MS) = true := by
      simp [hd, JsNum.addFin, JsNum.geFin, Server.DOWNLOAD_DURATION_BUFFER_MS]
      linarith
    simp [Server.sendDownloadChunk, ht, hbp, hge]
  · intro st w b f ok hst
    cases st with
    | upload s => exact absurd rfl (hst s)
    | disconnected => rfl
    | ready => rfl
    | download s => rfl
    | completed => rfl
    | error => rfl

/-- Witness for `download_flood_self_terminates` at a concrete input. -/
theorem download_flood_self_terminates_witness :
    (Server.FloodCtx.mk 0 (.finite 3000) (.finite 4194304)).requestedDurationMs
        = .finite 3000 ∧
    (3 : Int) ≠ Server.FLOOD_CANCELLED ∧
    JsNum.geFin 0 (Server.FloodCtx.mk 0 (.finite 3000) (.finite 4194304)).payloadSizeBytes.twice
        = false ∧
    (3501 : ℚ) - (Server.FloodCtx.mk 0 (.finite 3000) (.finite 4194304)).floodStartTimeMs
        > 3000 + 500 ∧
    (Server.sendDownloadChunk ⟨0, .finite 3000, .finite 4194304⟩ 3 0 3501 9
        = ⟨Server.FLOOD_CANCELLED, true, false⟩
      ∧ (∀ s b f ok, Client.sendUploadChunk (.upload s) false b f ok
          = (Client.stopUploadTest (.upload s), false, false))
      ∧ (∀ st w b f ok, (∀ s, st ≠ Client.ClientState.upload s) →
          Client.sendUploadChunk st w b f ok
            = (Client.stopUploadTest st, false, false))) :=
  ⟨rfl, by decide, by norm_num [JsNum.geFin, JsNum.twice], by norm_num,
   download_flood_self_terminates ⟨0, .finite 3000, .finite 4194304⟩ 3 0 3501 3000 9
     rfl (by decide) (by norm_num [JsNum.geFin, JsNum.twice]) (by norm_num)⟩

/-- C5 counterexample: the client-side flood's backpressure threshold is
not `2 ×` the chunk size: with the 4 MiB default chunk, a tick at
`bufferedAmount = 8388608` (exactly `2 × 4 MiB`) still sends a chunk,
because the client gates on the fixed constant
`BACKPRESSURE_THRESHOLD_BYTES = 16 MiB` instead. -/
theorem client_threshold_not_twice_chunk_counterexample :
    (2 * (4 * Client.MiB) : ℕ) = 8388608
    ∧ Client.sendUploadChunk (.upload ⟨0, 4 * Client.MiB⟩) true (2 * (4 * Client.MiB)) 7 true
        = (.upload ⟨7, 4 * Client.MiB⟩, true, true) := by
  norm_num [Client.sendUploadChunk, Client.BACKPRESSURE_THRESHOLD_BYTES, Client.MiB]

/-- C5 amended: each flood engine gates every send on its own
backpressure threshold — `2 × payloadSizeBytes` on the server's
download flood, but the fixed constant 16 MiB (independent of chunk
size) on the client's upload flood. On a tick at or above the
threshold nothing is sent and a short retry is scheduled; a send
happens only on a tick strictly below the threshold. -/
theorem backpressure_gates_sends (ctx : Server.FloodCtx) (timer : Int)
    (bufferedAmount now : ℚ) (freshId : Int) (s : Client.UploadState)
    (cbuf : ℕ) (sendOk : Bool)
    (ht : timer ≠ Server.FLOOD_CANCELLED) :
    (JsNum.geFin bufferedAmount ctx.payloadSizeBytes.twice = true →
      Server.sendDownloadChunk ctx timer bufferedAmount now freshId
        = ⟨freshId, false, true⟩)
    ∧ (JsNum.geFin bufferedAmount ctx.payloadSizeBytes.twice = false →
        (Server.sendDownloadChunk ctx timer bufferedAmount now freshId).sent = true)
    ∧ (cbuf ≥ Client.BACKPRESSURE_THRESHOLD_BYTES →
        Client.sendUploadChunk (.upload s) true cbuf freshId sendOk
          = (.upload ⟨freshId, s.uploadPayloadBytes⟩, false, true))
    ∧ (cbuf < Client.BACKPRESSURE_THRESHOLD_BYTES → sendOk = true →
        (Client.sendUploadChunk (.upload s) true cbuf freshId sendOk).2.1 = true) := by
  refine ⟨?_, ?_, ?_, ?_⟩
  · intro hbp
    simp [Server.sendDownloadChunk, ht, hbp]
  · intro hbp
    unfold Server.sendDownloadChunk
    rw [if_neg ht, if_neg (by simp [hbp])]
    dsimp only
    split <;> rfl
  · intro hbp
    simp [Client.sendUploadChunk, hbp]
  · intro hbp hok
    simp [Client.sendUploadChunk, not_le.mpr hbp, hok]

/-- The sum of a cons of timed binary frames. -/
lemma sumBytes_cons (t : ℚ) (l : ℕ) (tl : List (ℚ × ℕ)) :
    Server.sumBytes ((t, l) :: tl) = l + Server.sumBytes tl := by
  simp [Server.sumBytes]

/-- One step of the server measurement engine on a non-first payload
frame: accumulate and either finish or emit progress. -/
lemma uploadData_step (now t1 D : ℚ) (b : Int) (l : ℕ) (hbne : b ≠ -1) :
    Server.processMessage now (.upload ⟨t1, .finite D, b⟩) (.binary l)
      = if D ≤ now - t1 then
          (.idle, [.uploadResult (now - t1) (b + l)])
        else
          (.upload ⟨t1, .finite D, b + l⟩,
            [.uploadProgress (now - t1) (b + l)
              (JsNum.progressPercent (now - t1) (.finite D))]) := by
  by_cases h : D ≤ now - t1
  · simp [Server.processMessage, Server.parseEventToAction, Server.processAction,
      Server.uploadData, hbne, JsNum.geFin, h]
  · simp [Server.processMessage, Server.parseEventToAction, Server.processAction,
      Server.uploadData, hbne, JsNum.geFin, h]

/-- Running the server measurement engine from an accumulating upload
state over a steady chunk stream whose last chunk is the first with
`elapsed ≥ D`: all earlier chunks produce progress messages, the last
produces the terminal `uploadResult` holding the full accumulated byte
count, and the state ends idle. -/
lemma runBinaryEvents_upload_steady (t1 D tN : ℚ) (lenN : ℕ) (mid : List (ℚ × ℕ)) :
    ∀ b : Int, 0 ≤ b →
      (∀ p ∈ mid, p.1 - t1 < D) → D ≤ tN - t1 →
      ∃ ps,
        Server.runBinaryEvents (.upload ⟨t1, .finite D, b⟩) (mid ++ [(tN, lenN)])
          = (.idle, ps ++ [.uploadResult (tN - t1) (b + Server.sumBytes mid + lenN)])
        ∧ ∀ m ∈ ps, ∃ e r pp, m = Server.ServerMessage.uploadProgress e r pp := by
  induction mid with
  | nil =>
      intro b hb hmid hN
      refine ⟨[], ?_, by simp⟩
      have hbne : b ≠ -1 := by omega
      simp only [List.nil_append, Server.runBinaryEvents,
        uploadData_step tN t1 D b lenN hbne, if_pos hN]
      simp [Server.sumBytes]
  | cons hd tl ih =>
      intro b hb hmid hN
      obtain ⟨t, l⟩ := hd
      have hlt : t - t1 < D := hmid (t, l) (List.mem_cons_self _ _)
      have hbne : b ≠ -1 := by omega
      obtain ⟨ps, hrun, hps⟩ :=
        ih (b + l) (by positivity) (fun p hp => hmid p (List.mem_cons_of_mem _ hp)) hN
      refine ⟨Server.ServerMessage.uploadProgress (t - t1) (b + l)
          (JsNum.progressPercent (t - t1) (.finite D)) :: ps, ?_, ?_⟩
      · have hacc : b + (l : Int) + Server.sumBytes tl + (lenN : Int)
            = b + Server.sumBytes ((t, l) :: tl) + lenN := by
          rw [sumBytes_cons]
          ring
        simp only [List.cons_append, Server.runBinaryEvents,
          uploadData_step t t1 D b l hbne, if_neg (not_le.mpr hlt), List.append_eq]
        rw [hrun]
        simp [hacc]
      · intro m hm
        rcases List.mem_cons.mp hm with h | h
        · exact ⟨t - t1, b + l, JsNum.progressPercent (t - t1) (.finite D), h⟩
        · exact hps m h

/-- C6: for an upload test started with `requestedDurationMs = D` and a
stream of binary chunks at the given clock instants in which the first
chunk arrives at `t1` and the last chunk is the first whose elapsed time
`tN - t1` (elapsed since the corrected clock) reaches `D`, the server
ends idle, every message before the last is an `uploadProgress`, and the
terminal message is `uploadResult` with `elapsedMs = tN - t1 ≥ D` and
`receivedBytes` equal to the total size of all chunks except chunk #1.
(Any later binary frame would be dropped by the dispatcher, the idle
phase having no `uploadData` handler.) -/
theorem upload_run_terminal (t0 t1 tN D : ℚ) (len1 lenN : ℕ) (mid : List (ℚ × ℕ))
    (hD : 0 < D)
    (hmid : ∀ p ∈ mid, p.1 - t1 < D)
    (hN : D ≤ tN - t1) :
    ∃ ps,
      Server.runBinaryEvents
          (Server.processMessage t0 .idle (.text (.startUpload (some (.finite D))))).1
          ((t1, len1) :: (mid ++ [(tN, lenN)]))
        = (.idle, ps ++ [.uploadResult (tN - t1) (Server.sumBytes mid + lenN)])
      ∧ ∀ m ∈ ps, ∃ e r pp, m = Server.ServerMessage.uploadProgress e r pp := by
  have hst0 : (Server.processMessage t0 .idle (.text (.startUpload (some (.finite D))))).1
      = .upload ⟨t0, .finite D, -1⟩ := by
    simp [Server.processMessage, Server.parseEventToAction, JsNum.leZero,
      not_le.mpr hD, Server.processAction, Server.startUpload]
  have hfirst : Server.processMessage t1 (.upload ⟨t0, .finite D, -1⟩) (.binary len1)
      = (.upload ⟨t1, .finite D, 0⟩, []) := by
    simp [Server.processMessage, Server.parseEventToAction, Server.processAction,
      Server.uploadData]
  obtain ⟨ps, hrun, hps⟩ :=
    runBinaryEvents_upload_steady t1 D tN lenN mid 0 le_rfl hmid hN
  refine ⟨ps, ?_, hps⟩
  rw [hst0]
  simp only [Server.runBinaryEvents, hfirst]
  rw [hrun]
  simp

/-- Witness for `upload_run_terminal` at a concrete input. -/
theorem upload_run_terminal_witness :
    (0 : ℚ) < 3000 ∧
    (∀ p ∈ [((1100 : ℚ), (5 : ℕ))], p.1 - 100 < 3000) ∧
    (3000 : ℚ) ≤ 3200 - 100 ∧
    (∃ ps,
      Server.runBinaryEvents
          (Server.processMessage 0 .idle (.text (.startUpload (some (.finite 3000))))).1
          ((100, 999) :: ([((1100 : ℚ), (5 : ℕ))] ++ [(3200, 7)]))
        = (.idle, ps ++ [.uploadResult (3200 - 100) (Server.sumBytes [((1100 : ℚ), (5 : ℕ))] + 7)])
      ∧ ∀ m ∈ ps, ∃ e r pp, m = Server.ServerMessage.uploadProgress e r pp) := by
  have hmid : ∀ p ∈ [((1100 : ℚ), (5 : ℕ))], p.1 - 100 < 3000 := by
    intro p hp
    rw [List.mem_singleton] at hp
    subst hp
    norm_num
  exact ⟨by norm_num, hmid, by norm_num,
    upload_run_terminal 0 100 3200 3000 999 7 [((1100 : ℚ), (5 : ℕ))]
      (by norm_num) hmid (by norm_num)⟩

/-- C7 counterexample: on the client, a malformed-JSON control message
does change the connection state — while in the download phase it
triggers the `error` transition followed by `resetToIdle`, leaving the
client `ready` (socket open), not in its previous download state. -/
theorem malformed_json_changes_client_state :
    Client.onTextMessage (.download ⟨0, 100, 200, false⟩) true none = .ready
    ∧ Client.ClientState.ready ≠ .download ⟨0, 100, 200, false⟩ :=
  ⟨rfl, by simp⟩

/-- C7 amended: on the server, a control message that is malformed JSON,
has an unknown type, or whose `durationMs` / `payloadSizeBytes` field is
missing, non-numeric, or satisfies the JS comparison `x <= 0`, is
dropped with the connection state unchanged and nothing sent (the model
is total, so no crash); however the validation admits non-finite values
that fail `x <= 0` — `+Infinity` (producible by `JSON.parse` from a
literal such as `1e999`) passes and does cause a state transition. On
the client, a successfully parsed message of unknown type leaves the
state unchanged, but malformed JSON triggers the `error` transition
followed by `resetToIdle` (to `ready` or `disconnected`). -/
theorem invalid_control_messages_dropped (now : ℚ) (st : Server.ClientState)
    (cst : Client.ClientState) (wsOpen : Bool) (d pz : Option JsNum)
    (hd : d = none ∨ ∃ x, d = some x ∧ x.leZero = true) :
    Server.processMessage now st (.text .malformed) = (st, [])
    ∧ Server.processMessage now st (.text .unknownType) = (st, [])
    ∧ Server.processMessage now st (.text (.startUpload d)) = (st, [])
    ∧ Server.processMessage now st (.text (.startDownload d pz)) = (st, [])
    ∧ (∀ x, JsNum.leZero x = false →
        Server.processMessage now st (.text (.startDownload (some x) none)) = (st, []))
    ∧ (∀ x y, JsNum.leZero x = false → JsNum.leZero y = true →
        Server.processMessage now st (.text (.startDownload (some x) (some y))) = (st, []))
    ∧ Client.handleServerMessage cst .unknown = cst
    ∧ Client.onTextMessage cst wsOpen none = Client.resetToIdle .error wsOpen
    ∧ Server.processMessage now .idle (.text (.startUpload (some .posInf)))
        = (.upload ⟨now, .posInf, -1⟩, []) := by
  refine ⟨rfl, rfl, ?_, ?_, ?_, ?_, rfl, rfl, ?_⟩
  · rcases hd with rfl | ⟨x, rfl, hx⟩
    · rfl
    · simp [Server.processMessage, Server.parseEventToAction, hx]
  · rcases hd with rfl | ⟨x, rfl, hx⟩
    · rfl
    · simp [Server.processMessage, Server.parseEventToAction, hx]
  · intro x hx
    simp [Server.processMessage, Server.parseEventToAction, hx]
  · intro x y hx hy
    simp [Server.processMessage, Server.parseEventToAction, hx, hy]
  · simp [Server.processMessage, Server.parseEventToAction, JsNum.leZero,
      Server.processAction, Server.startUpload]

/-- Witness for `invalid_control_messages_dropped` at a concrete input. -/
theorem invalid_control_messages_dropped_witness :
    ((none : Option JsNum) = none ∨
      ∃ x, (none : Option JsNum) = some x ∧ x.leZero = true) ∧
    (Server.processMessage 5 .idle (.text .malformed) = (.idle, [])
      ∧ Server.processMessage 5 .idle (.text .unknownType) = (.idle, [])
      ∧ Server.processMessage 5 .idle (.text (.startUpload none)) = (.idle, [])
      ∧ Server.processMessage 5 .idle (.text (.startDownload none (some (.finite 4)))) = (.idle, [])
      ∧ (∀ x, JsNum.leZero x = false →
          Server.processMessage 5 .idle (.text (.startDownload (some x) none)) = (.idle, []))
      ∧ (∀ x y, JsNum.leZero x = false → JsNum.leZero y = true →
          Server.processMessage 5 .idle (.text (.startDownload (some x) (some y))) = (.idle, []))
      ∧ Client.handleServerMessage .ready .unknown = .ready
      ∧ Client.onTextMessage .ready true none = Client.resetToIdle .error true
      ∧ Server.processMessage 5 .idle (.text (.startUpload (some .posInf)))
          = (.upload ⟨5, .posInf, -1⟩, [])) :=
  ⟨Or.inl rfl,
   invalid_control_messages_dropped 5 .idle .ready true none (some (.finite 4)) (Or.inl rfl)⟩

/-- Witness for `backpressure_gates_sends` at a concrete input. -/
theorem backpressure_gates_sends_witness :
    (3 : Int) ≠ Server.FLOOD_CANCELLED ∧
    ((JsNum.geFin 9000000 (Server.FloodCtx.mk 0 (.finite 3000) (.finite 4194304)).payloadSizeBytes.twice = true →
        Server.sendDownloadChunk ⟨0, .finite 3000, .finite 4194304⟩ 3 9000000 50 9
          = ⟨9, false, true⟩)
      ∧ (JsNum.geFin 9000000 (Server.FloodCtx.mk 0 (.finite 3000) (.finite 4194304)).payloadSizeBytes.twice = false →
          (Server.sendDownloadChunk ⟨0, .finite 3000, .finite 4194304⟩ 3 9000000 50 9).sent = true)
      ∧ (17000000 ≥ Client.BACKPRESSURE_THRESHOLD_BYTES →
          Client.sendUploadChunk (.upload ⟨0, 4194304⟩) true 17000000 9 true
            = (.upload ⟨9, (Client.UploadState.mk 0 4194304).uploadPayloadBytes⟩, false, true))
      ∧ (17000000 < Client.BACKPRESSURE_THRESHOLD_BYTES → true = true →
          (Client.sendUploadChunk (.upload ⟨0, 4194304⟩) true 17000000 9 true).2.1 = true)) :=
  ⟨by decide,
   backpressure_gates_sends ⟨0, .finite 3000, .finite 4194304⟩ 3 9000000 50 9
     ⟨0, 4194304⟩ 17000000 true (by decide)⟩

end Wiperf
